import Mathlib

/-!
Verification of the capture-session lifecycle of the windows-capture CLI example
(`examples/cli….rs`).  The handler `Capture::on_frame_arrived`, the closed-event handler
`Capture::on_closed` and the constructor `Capture::new` are shallowly embedded as pure
Lean functions over an explicit session state.  Wall-clock instants are modelled as
natural numbers of milliseconds; the outcomes of the external calls performed by one
handler invocation (stdout flush, `send_frame`, `finish`, and the `SeqCst` load of the
shared stop flag) are supplied as inputs of that invocation.  Each invocation also
returns the ordered list of externally visible effects it performed, so that ordering
and at-most-once properties can be stated on the trace.
-/

namespace WinCap

/-- Externally visible effects of one handler invocation, in program order.
`report` carries the raw data of the `print!` fps line: the frame count used as the
numerator, the elapsed time of the current measurement window (the denominator), and
the total elapsed recording time.  `flushStdout` is the `io::stdout().flush()` call,
`submitFrame` the `send_frame` call, `finalizeSink` the `take().unwrap().finish()`
call, `stopDelivery` the `capture_control.stop()` call. -/
inductive Effect where
  | report (count elapsedSinceReset elapsedTotal : Nat)
  | flushStdout
  | submitFrame (frameId : Nat)
  | finalizeSink
  | stopDelivery
  | printStopped
  | printClosed
  | printStart
  | openEncoder
deriving DecidableEq, Repr

/-- The error values that can travel through the handler's `?` operators:
the stdout flush error, the `send_frame` error, and the `finish` error. -/
inductive CapError where
  | ioError
  | sendError
  | finishError
deriving DecidableEq, Repr

/-- Result of an external call or of a whole handler invocation: normal return,
an error propagated with `?`, or a Rust panic (e.g. `unwrap()` on `None`). -/
inductive Outcome where
  | ok
  | err (e : CapError)
  | panicked
deriving DecidableEq, Repr

/-- The `CaptureSettings` struct of the source (minus the shared `stop_flag`, whose
`SeqCst` loads are modelled as per-invocation inputs). -/
structure CaptureSettings where
  width : Nat
  height : Nat
  path : String
  bitrate : Nat
  frame_rate : Nat
deriving DecidableEq, Repr

/-- The `Capture` struct of the source: the optional encoder handle, the session start
instant, the throughput window counter and the window start instant, and the settings. -/
structure CaptureState where
  encoder : Option Unit
  start : Nat
  frame_count_since_reset : Nat
  last_reset : Nat
  settings : CaptureSettings
deriving DecidableEq, Repr

/-- The inputs of one `on_frame_arrived` invocation: the current instant `now` (used by
the two `elapsed()` computations at the head of the handler), the instant `nowAtReset`
produced by the `Instant::now()` call inside the window-reset branch, the identity of
the arriving frame, the success of the stdout flush, of `send_frame` and of `finish`,
and the value returned by the `SeqCst` load of the shared stop flag. -/
structure FrameEnv where
  now : Nat
  nowAtReset : Nat
  frameId : Nat
  flushOk : Bool
  sendOk : Bool
  finishOk : Bool
  stopFlag : Bool
deriving DecidableEq, Repr

/-- What one handler invocation yields: the updated `Capture` state, the ordered list
of effects it performed, and its outcome. -/
structure HandlerResult where
  state : CaptureState
  effects : List Effect
  outcome : Outcome
deriving DecidableEq, Repr

/-- `Duration::from_secs(1)` in milliseconds. -/
def oneSecond : Nat := 1000

/-- Shallow embedding of `Capture::on_frame_arrived`.  Program order of the source:
increment `frame_count_since_reset`; compute `elapsed_since_reset` and the fps line and
`print!` it; `io::stdout().flush()?`; `self.encoder.as_mut().unwrap().send_frame(frame)?`;
if the stop flag is loaded as set, `self.encoder.take().unwrap().finish()?`, then
`capture_control.stop()` and a final `println!`; finally, if `elapsed_since_reset` is at
least one second, reset `frame_count_since_reset` to 0 and `last_reset` to a fresh
`Instant::now()`; return `Ok(())`. -/
def on_frame_arrived (s : CaptureState) (env : FrameEnv) : HandlerResult :=
  let count := s.frame_count_since_reset + 1
  let elapsedSinceReset := env.now - s.last_reset
  let s1 : CaptureState := { s with frame_count_since_reset := count }
  let effs0 : List Effect :=
    [Effect.report count elapsedSinceReset (env.now - s.start), Effect.flushStdout]
  if env.flushOk = false then
    { state := s1, effects := effs0, outcome := Outcome.err CapError.ioError }
  else
    match s.encoder with
    | none => { state := s1, effects := effs0, outcome := Outcome.panicked }
    | some _ =>
      let effs1 := effs0 ++ [Effect.submitFrame env.frameId]
      if env.sendOk = false then
        { state := s1, effects := effs1, outcome := Outcome.err CapError.sendError }
      else if env.stopFlag then
        let s2 : CaptureState := { s1 with encoder := none }
        let effs2 := effs1 ++ [Effect.finalizeSink]
        if env.finishOk = false then
          { state := s2, effects := effs2, outcome := Outcome.err CapError.finishError }
        else
          let effs3 := effs2 ++ [Effect.stopDelivery, Effect.printStopped]
          if oneSecond ≤ elapsedSinceReset then
            { state := { s2 with frame_count_since_reset := 0, last_reset := env.nowAtReset },
              effects := effs3, outcome := Outcome.ok }
          else
            { state := s2, effects := effs3, outcome := Outcome.ok }
      else
        if oneSecond ≤ elapsedSinceReset then
          { state := { s1 with frame_count_since_reset := 0, last_reset := env.nowAtReset },
            effects := effs1, outcome := Outcome.ok }
        else
          { state := s1, effects := effs1, outcome := Outcome.ok }

/-- Shallow embedding of `Capture::on_closed`: it prints a closing message and returns
`Ok(())`; the state is left untouched. -/
def on_closed (s : CaptureState) : HandlerResult :=
  { state := s, effects := [Effect.printClosed], outcome := Outcome.ok }

/-- The finalize step exactly as written in the source's stop branch:
`self.encoder.take().unwrap().finish()?`.  `take()` moves the encoder out of the
`Option` (leaving `None`); `unwrap()` panics when the `Option` is already `None`. -/
def finalizeEncoder (s : CaptureState) (finishOk : Bool) : HandlerResult :=
  match s.encoder with
  | none =>
    { state := { s with encoder := none }, effects := [], outcome := Outcome.panicked }
  | some _ =>
    if finishOk then
      { state := { s with encoder := none }, effects := [Effect.finalizeSink],
        outcome := Outcome.ok }
    else
      { state := { s with encoder := none }, effects := [Effect.finalizeSink],
        outcome := Outcome.err CapError.finishError }

/-- Modelled from the spec: `VideoEncoder::new` lives in the windows-capture crate,
outside the example source under verification.  Per the spec, a configuration whose
width or height equals 0 is rejected at configuration validation before a sink is
opened; otherwise the encoder opens against the configured path, bitrate and frame
rate (the `openEncoder` effect). -/
def VideoEncoder.new (settings : CaptureSettings) : Option Unit × List Effect :=
  if settings.width = 0 ∨ settings.height = 0 then (none, [])
  else (some (), [Effect.openEncoder])

/-- Shallow embedding of `Capture::new`: print the start message, build the video
settings from the flags, open the `VideoEncoder` with `?`, and on success return the
initial state with the live encoder, both instants at `startNow`, and a zero window
counter. -/
def Capture.new (startNow : Nat) (flags : CaptureSettings) :
    Option CaptureState × List Effect :=
  match VideoEncoder.new flags with
  | (none, effs) => (none, Effect.printStart :: effs)
  | (some e, effs) =>
    (some { encoder := some e, start := startNow, frame_count_since_reset := 0,
            last_reset := startNow, settings := flags },
     Effect.printStart :: effs)

/-- A maximal run of the capture runtime against the handler: invocations are delivered
strictly sequentially; the run ends when the handler errors or panics (the library
surfaces the error from `Capture::start`), or when the handler has called
`capture_control.stop()` (the runtime then ceases frame delivery). -/
def runFrames : CaptureState → List FrameEnv → CaptureState × List Effect × Outcome
  | s, [] => (s, [], Outcome.ok)
  | s, env :: rest =>
    let r := on_frame_arrived s env
    match r.outcome with
    | Outcome.ok =>
      if Effect.stopDelivery ∈ r.effects then (r.state, r.effects, Outcome.ok)
      else
        let t := runFrames r.state rest
        (t.1, r.effects ++ t.2.1, t.2.2)
    | o => (r.state, r.effects, o)

/-- Recognizer for frame-submission effects. -/
def Effect.isSubmit : Effect → Bool
  | Effect.submitFrame _ => true
  | _ => false

/-- Recognizer for the finalize effect. -/
def Effect.isFinalize : Effect → Bool
  | Effect.finalizeSink => true
  | _ => false

/-- Number of frames submitted to the sink in a trace. -/
def countSubmits (l : List Effect) : Nat := l.countP Effect.isSubmit

/-- Number of finalizations of the sink in a trace. -/
def countFinalizes (l : List Effect) : Nat := l.countP Effect.isFinalize

/-- Concrete settings used by the concrete witness states below. -/
def settings0 : CaptureSettings :=
  { width := 1920, height := 1080, path := "video.mp4", bitrate := 15000000,
    frame_rate := 60 }

/-- A session state whose encoder is still live. -/
def sOpen : CaptureState :=
  { encoder := some (), start := 0, frame_count_since_reset := 0, last_reset := 0,
    settings := settings0 }

/-- A session state whose encoder has already been consumed by finalize. -/
def sClosed : CaptureState :=
  { encoder := none, start := 0, frame_count_since_reset := 0, last_reset := 0,
    settings := settings0 }

/-- A plain frame arrival: every external call succeeds, the stop flag reads false. -/
def envPlain : FrameEnv :=
  { now := 500, nowAtReset := 500, frameId := 7, flushOk := true, sendOk := true,
    finishOk := true, stopFlag := false }

/-- A frame arrival whose stdout flush fails. -/
def envFlushFail : FrameEnv := { envPlain with flushOk := false }

/-- A frame arrival whose `send_frame` call fails. -/
def envSendFail : FrameEnv := { envPlain with sendOk := false }

/-- A frame arrival that loads the stop flag as set; every external call succeeds. -/
def envStop : FrameEnv := { envPlain with stopFlag := true }

/-- A frame arrival at which the 1-second window has elapsed (state `sOpen` has
`last_reset = 0` and `now = 1500`); every external call succeeds. -/
def envReset : FrameEnv := { envPlain with now := 1500, nowAtReset := 1500 }

/-- A frame arrival at which the 1-second window has elapsed but `send_frame` fails. -/
def envWinFail : FrameEnv := { envReset with sendOk := false }

/-- C1, counterexample.  A first finalize on a live encoder succeeds and consumes the
handle; a second finalize then panics (`take()` yields `None`, `unwrap()` panics)
instead of being a no-op returning success. -/
theorem c1_counterexample :
    (finalizeEncoder sOpen true).outcome = Outcome.ok ∧
    (finalizeEncoder (finalizeEncoder sOpen true).state true).outcome =
      Outcome.panicked := by
  decide

/-- C1, amended.  Finalize is not idempotent: on any session state with a live encoder,
the first finalize (with a successful `finish`) returns success and consumes the
handle, and every subsequent finalize call panics on the consumed `Option` rather than
returning success. -/
theorem c1_amended_finalize_not_idempotent (s : CaptureState) (b : Bool)
    (h : s.encoder = some ()) :
    (finalizeEncoder s true).outcome = Outcome.ok ∧
    (finalizeEncoder s true).state.encoder = none ∧
    (finalizeEncoder (finalizeEncoder s true).state b).outcome = Outcome.panicked := by
  simp [finalizeEncoder, h]

/-- C1, witness for the amended theorem at the concrete state `sOpen`. -/
theorem c1_amended_witness :
    sOpen.encoder = some () ∧
    (finalizeEncoder sOpen true).outcome = Outcome.ok ∧
    (finalizeEncoder sOpen true).state.encoder = none ∧
    (finalizeEncoder (finalizeEncoder sOpen true).state true).outcome =
      Outcome.panicked :=
  ⟨rfl, c1_amended_finalize_not_idempotent sOpen true rfl⟩

/-- C4, counterexample.  With the sink still open, `on_closed` performs no finalize and
leaves the encoder in place — it does not perform the finalize-and-stop path that the
stop-request path performs. -/
theorem c4_counterexample :
    sOpen.encoder = some () ∧
    countFinalizes (on_closed sOpen).effects = 0 ∧
    (on_closed sOpen).state.encoder = some () ∧
    Effect.stopDelivery ∉ (on_closed sOpen).effects := by
  decide

/-- C4, amended.  The `on_closed` handler merely logs and returns success in every
state: it never finalizes the sink or changes the session state, even when the sink is
still open; when the sink is already finalized it is likewise a log-only no-op. -/
theorem c4_amended_on_closed_logs_only (s : CaptureState) :
    (on_closed s).state = s ∧ (on_closed s).effects = [Effect.printClosed] ∧
    (on_closed s).outcome = Outcome.ok :=
  ⟨rfl, rfl, rfl⟩

/-- C10.  When the progress-output flush fails, the handler returns the I/O error
before the frame is submitted: no frame is submitted, the sink is not finalized, the
encoder handle is untouched, and the invocation fails with the I/O error. -/
theorem c10_flush_error_preempts_submit (s : CaptureState) (env : FrameEnv)
    (h : env.flushOk = false) :
    (on_frame_arrived s env).outcome = Outcome.err CapError.ioError ∧
    countSubmits (on_frame_arrived s env).effects = 0 ∧
    countFinalizes (on_frame_arrived s env).effects = 0 ∧
    (on_frame_arrived s env).state.encoder = s.encoder := by
  simp [on_frame_arrived, h, countSubmits, countFinalizes, List.countP_cons,
    Effect.isSubmit, Effect.isFinalize]

/-- C10, witness at the concrete state `sOpen` and a flush-failing frame arrival. -/
theorem c10_witness :
    envFlushFail.flushOk = false ∧
    ((on_frame_arrived sOpen envFlushFail).outcome = Outcome.err CapError.ioError ∧
      countSubmits (on_frame_arrived sOpen envFlushFail).effects = 0 ∧
      countFinalizes (on_frame_arrived sOpen envFlushFail).effects = 0 ∧
      (on_frame_arrived sOpen envFlushFail).state.encoder = sOpen.encoder) :=
  ⟨rfl, c10_flush_error_preempts_submit sOpen envFlushFail rfl⟩

/-- C2, counterexample.  With the encoder already consumed (the session is in its
terminal state), a further frame arrival is not ignored: the handler panics at
`self.encoder.as_mut().unwrap()`. -/
theorem c2_counterexample :
    sClosed.encoder = none ∧
    (on_frame_arrived sClosed envPlain).outcome = Outcome.panicked := by
  decide

/-- C2, amended.  After the encoder handle has been consumed, a target-closed event is
ignored (log-only, returns success), and no frame is ever submitted or finalized by a
further frame arrival — but such a frame arrival is not ignored: it panics at the
encoder unwrap when the progress flush succeeds, and fails with the I/O error when the
flush fails. -/
theorem c2_amended_terminal_frame_panics (s : CaptureState) (env : FrameEnv)
    (h : s.encoder = none) :
    (on_closed s).outcome = Outcome.ok ∧ (on_closed s).state = s ∧
    (env.flushOk = true → (on_frame_arrived s env).outcome = Outcome.panicked) ∧
    (env.flushOk = false →
      (on_frame_arrived s env).outcome = Outcome.err CapError.ioError) ∧
    countSubmits (on_frame_arrived s env).effects = 0 ∧
    countFinalizes (on_frame_arrived s env).effects = 0 := by
  cases hf : env.flushOk <;>
    simp [on_closed, on_frame_arrived, h, hf, countSubmits, countFinalizes,
      List.countP_cons, Effect.isSubmit, Effect.isFinalize]

/-- C2, witness for the amended theorem at the concrete terminal state `sClosed`. -/
theorem c2_amended_witness :
    sClosed.encoder = none ∧ envPlain.flushOk = true ∧
    (on_frame_arrived sClosed envPlain).outcome = Outcome.panicked :=
  ⟨rfl, rfl, (c2_amended_terminal_frame_panics sClosed envPlain rfl).2.2.1 rfl⟩

/-- C3, counterexample.  When `send_frame` fails, the handler propagates the error but
performs no finalize at all and leaves the encoder handle in place — contradicting the
claim that it immediately attempts a best-effort finalize of the sink. -/
theorem c3_counterexample :
    (on_frame_arrived sOpen envSendFail).outcome = Outcome.err CapError.sendError ∧
    countFinalizes (on_frame_arrived sOpen envSendFail).effects = 0 ∧
    (on_frame_arrived sOpen envSendFail).state.encoder = some () := by
  decide

/-- C3, amended.  When the frame submission fails in the capturing state, the handler
propagates the submission error to the caller exactly once, with exactly one (failed)
submission attempt and no retry or buffering of the frame — but it does not attempt to
finalize the sink: no finalize is performed and the encoder handle is left in place. -/
theorem c3_amended_submit_error_no_finalize (s : CaptureState) (env : FrameEnv)
    (h₁ : s.encoder = some ()) (h₂ : env.flushOk = true) (h₃ : env.sendOk = false) :
    (on_frame_arrived s env).outcome = Outcome.err CapError.sendError ∧
    countSubmits (on_frame_arrived s env).effects = 1 ∧
    countFinalizes (on_frame_arrived s env).effects = 0 ∧
    (on_frame_arrived s env).state.encoder = some () := by
  simp [on_frame_arrived, h₁, h₂, h₃, countSubmits, countFinalizes, List.countP_cons,
    List.countP_append, Effect.isSubmit, Effect.isFinalize]

/-- C3, witness for the amended theorem at the concrete state `sOpen`. -/
theorem c3_amended_witness :
    sOpen.encoder = some () ∧ envSendFail.flushOk = true ∧ envSendFail.sendOk = false ∧
    ((on_frame_arrived sOpen envSendFail).outcome = Outcome.err CapError.sendError ∧
      countSubmits (on_frame_arrived sOpen envSendFail).effects = 1 ∧
      countFinalizes (on_frame_arrived sOpen envSendFail).effects = 0 ∧
      (on_frame_arrived sOpen envSendFail).state.encoder = some ()) :=
  ⟨rfl, rfl, rfl, c3_amended_submit_error_no_finalize sOpen envSendFail rfl rfl rfl⟩

/-- C8, counterexample.  An invocation in which the 1-second window has elapsed and
which produced the throughput report (both the print and the flush happened) can fail
at `send_frame` and then performs no reset: neither the frame counter nor the
window-start timestamp is touched, contradicting the claim that the reporting
invocation always resets the window. -/
theorem c8_counterexample :
    oneSecond ≤ envWinFail.now - sOpen.last_reset ∧
    Effect.report (sOpen.frame_count_since_reset + 1)
        (envWinFail.now - sOpen.last_reset) (envWinFail.now - sOpen.start) ∈
      (on_frame_arrived sOpen envWinFail).effects ∧
    Effect.flushStdout ∈ (on_frame_arrived sOpen envWinFail).effects ∧
    (on_frame_arrived sOpen envWinFail).state.last_reset = sOpen.last_reset ∧
    (on_frame_arrived sOpen envWinFail).state.frame_count_since_reset =
      sOpen.frame_count_since_reset + 1 := by
  decide

/-- C8, amended.  The frame counter and the window-start timestamp are only ever reset
together (the state either keeps the old window start with the incremented counter, or
is reset to counter 0 with the fresh window start); and on every invocation that
returns successfully, the window is reset exactly when the 1-second window has elapsed,
in the same invocation that produced the report.  Invocations that fail at the flush,
the submission or the finish skip the reset even when the window has elapsed. -/
theorem c8_amended_reset_together (s : CaptureState) (env : FrameEnv) :
    Effect.report (s.frame_count_since_reset + 1) (env.now - s.last_reset)
        (env.now - s.start) ∈ (on_frame_arrived s env).effects ∧
    (((on_frame_arrived s env).state.frame_count_since_reset =
          s.frame_count_since_reset + 1 ∧
        (on_frame_arrived s env).state.last_reset = s.last_reset) ∨
      ((on_frame_arrived s env).state.frame_count_since_reset = 0 ∧
        (on_frame_arrived s env).state.last_reset = env.nowAtReset)) ∧
    ((on_frame_arrived s env).outcome = Outcome.ok →
      oneSecond ≤ env.now - s.last_reset →
      ((on_frame_arrived s env).state.frame_count_since_reset = 0 ∧
        (on_frame_arrived s env).state.last_reset = env.nowAtReset)) ∧
    ((on_frame_arrived s env).outcome = Outcome.ok →
      ¬ oneSecond ≤ env.now - s.last_reset →
      ((on_frame_arrived s env).state.frame_count_since_reset =
          s.frame_count_since_reset + 1 ∧
        (on_frame_arrived s env).state.last_reset = s.last_reset)) := by
  unfold on_frame_arrived
  cases hf : env.flushOk <;> cases henc : s.encoder <;> cases hsend : env.sendOk <;>
    cases hstop : env.stopFlag <;> cases hfin : env.finishOk <;>
      by_cases hw : oneSecond ≤ env.now - s.last_reset <;>
        simp [hf, henc, hsend, hstop, hfin, hw]

/-- C8, witness for the amended theorem at the concrete state `sOpen` and the
window-elapsed frame arrival `envReset`. -/
theorem c8_amended_witness :
    (on_frame_arrived sOpen envReset).outcome = Outcome.ok ∧
    oneSecond ≤ envReset.now - sOpen.last_reset ∧
    ((on_frame_arrived sOpen envReset).state.frame_count_since_reset = 0 ∧
      (on_frame_arrived sOpen envReset).state.last_reset = envReset.nowAtReset) :=
  ⟨by decide, by decide,
    (c8_amended_reset_together sOpen envReset).2.2.1 (by decide) (by decide)⟩

/-- C9.  Every frame-arrival invocation increments the window counter by exactly one
before the fps report is computed: the report (the first effect of the invocation) is
computed from the incremented counter.  On a successful invocation, when the window has
elapsed the counter is reset to zero (the triggering frame is counted in the closing
window, not carried into the new one), and otherwise the counter keeps the incremented
value. -/
theorem c9_frame_counted_once (s : CaptureState) (env : FrameEnv) :
    ((on_frame_arrived s env).effects).head? =
      some (Effect.report (s.frame_count_since_reset + 1) (env.now - s.last_reset)
        (env.now - s.start)) ∧
    ((on_frame_arrived s env).outcome = Outcome.ok →
      oneSecond ≤ env.now - s.last_reset →
      (on_frame_arrived s env).state.frame_count_since_reset = 0) ∧
    ((on_frame_arrived s env).outcome = Outcome.ok →
      ¬ oneSecond ≤ env.now - s.last_reset →
      (on_frame_arrived s env).state.frame_count_since_reset =
        s.frame_count_since_reset + 1) := by
  unfold on_frame_arrived
  cases hf : env.flushOk <;> cases henc : s.encoder <;> cases hsend : env.sendOk <;>
    cases hstop : env.stopFlag <;> cases hfin : env.finishOk <;>
      by_cases hw : oneSecond ≤ env.now - s.last_reset <;>
        simp [hf, henc, hsend, hstop, hfin, hw]

/-- C9, witness at the concrete state `sOpen` and the window-elapsed frame arrival
`envReset`. -/
theorem c9_witness :
    (on_frame_arrived sOpen envReset).outcome = Outcome.ok ∧
    oneSecond ≤ envReset.now - sOpen.last_reset ∧
    (on_frame_arrived sOpen envReset).state.frame_count_since_reset = 0 :=
  ⟨by decide, by decide,
    (c9_frame_counted_once sOpen envReset).2.1 (by decide) (by decide)⟩

/-- One handler invocation submits at most one frame to the sink. -/
theorem countSubmits_on_frame_le_one (s : CaptureState) (env : FrameEnv) :
    countSubmits (on_frame_arrived s env).effects ≤ 1 := by
  unfold on_frame_arrived
  cases hf : env.flushOk <;> cases henc : s.encoder <;> cases hsend : env.sendOk <;>
    cases hstop : env.stopFlag <;> cases hfin : env.finishOk <;>
      by_cases hw : oneSecond ≤ env.now - s.last_reset <;>
        simp [hf, henc, hsend, hstop, hfin, hw, countSubmits, List.countP_cons,
          List.countP_append, Effect.isSubmit]

/-- One handler invocation finalizes the sink at most once. -/
theorem countFinalizes_on_frame_le_one (s : CaptureState) (env : FrameEnv) :
    countFinalizes (on_frame_arrived s env).effects ≤ 1 := by
  unfold on_frame_arrived
  cases hf : env.flushOk <;> cases henc : s.encoder <;> cases hsend : env.sendOk <;>
    cases hstop : env.stopFlag <;> cases hfin : env.finishOk <;>
      by_cases hw : oneSecond ≤ env.now - s.last_reset <;>
        simp [hf, henc, hsend, hstop, hfin, hw, countFinalizes, List.countP_cons,
          List.countP_append, Effect.isFinalize]

/-- An invocation that loads the stop flag as set and returns `Ok` has signaled the
runtime to stop delivery. -/
theorem stopFlag_ok_stopDelivery (s : CaptureState) (env : FrameEnv)
    (hflag : env.stopFlag = true) :
    (on_frame_arrived s env).outcome = Outcome.ok →
    Effect.stopDelivery ∈ (on_frame_arrived s env).effects := by
  unfold on_frame_arrived
  cases hf : env.flushOk <;> cases henc : s.encoder <;> cases hsend : env.sendOk <;>
    cases hfin : env.finishOk <;>
      by_cases hw : oneSecond ≤ env.now - s.last_reset <;>
        simp [hf, henc, hsend, hflag, hfin, hw]

/-- An invocation that finalized the sink and returned `Ok` has also signaled the
runtime to stop delivery (so the run halts at that invocation either way). -/
theorem finalize_implies_halt (s : CaptureState) (env : FrameEnv) :
    Effect.finalizeSink ∈ (on_frame_arrived s env).effects →
    (on_frame_arrived s env).outcome = Outcome.ok →
    Effect.stopDelivery ∈ (on_frame_arrived s env).effects := by
  unfold on_frame_arrived
  cases hf : env.flushOk <;> cases henc : s.encoder <;> cases hsend : env.sendOk <;>
    cases hstop : env.stopFlag <;> cases hfin : env.finishOk <;>
      by_cases hw : oneSecond ≤ env.now - s.last_reset <;>
        simp [hf, henc, hsend, hstop, hfin, hw]

/-- Splitting the finalize count over a trace concatenation. -/
theorem countFinalizes_append (a b : List Effect) :
    countFinalizes (a ++ b) = countFinalizes a + countFinalizes b := by
  simp [countFinalizes, List.countP_append]

/-- A trace not containing the finalize effect has finalize count zero. -/
theorem countFinalizes_eq_zero_of_not_mem {l : List Effect}
    (h : Effect.finalizeSink ∉ l) : countFinalizes l = 0 := by
  rw [countFinalizes, List.countP_eq_zero]
  intro a ha
  cases a <;> simp_all [Effect.isFinalize]

/-- Across a whole maximal run, the sink is finalized at most once. -/
theorem runFrames_finalizes_le_one (s : CaptureState) (envs : List FrameEnv) :
    countFinalizes (runFrames s envs).2.1 ≤ 1 := by
  induction envs generalizing s with
  | nil => simp [runFrames, countFinalizes]
  | cons env rest ih =>
    cases ho : (on_frame_arrived s env).outcome with
    | ok =>
      by_cases hm : Effect.stopDelivery ∈ (on_frame_arrived s env).effects
      · simpa [runFrames, ho, hm] using countFinalizes_on_frame_le_one s env
      · have hnofin : Effect.finalizeSink ∉ (on_frame_arrived s env).effects :=
          fun hf => hm (finalize_implies_halt s env hf ho)
        simp only [runFrames, ho, hm, if_false]
        rw [countFinalizes_append, countFinalizes_eq_zero_of_not_mem hnofin]
        simpa using ih (on_frame_arrived s env).state
    | err e => simpa [runFrames, ho] using countFinalizes_on_frame_le_one s env
    | panicked => simpa [runFrames, ho] using countFinalizes_on_frame_le_one s env

/-- C5.  Once the stop request is visible (every invocation of the run loads the stop
flag as set, which the `SeqCst` semantics guarantees for every invocation beginning
after `request_stop()` returned), at most one further frame is submitted to the sink;
and if the run ends normally, it is because the very first invocation (if any) already
observed the stop and signaled the runtime to stop delivery. -/
theorem c5_stop_request_bound (s : CaptureState) (envs : List FrameEnv)
    (h : ∀ env ∈ envs, env.stopFlag = true) :
    countSubmits (runFrames s envs).2.1 ≤ 1 ∧
    ((runFrames s envs).2.2 = Outcome.ok →
      envs = [] ∨ Effect.stopDelivery ∈ (runFrames s envs).2.1) := by
  cases envs with
  | nil => simp [runFrames, countSubmits]
  | cons env rest =>
    have hflag : env.stopFlag = true := h env (List.mem_cons_self env rest)
    have hsub := countSubmits_on_frame_le_one s env
    have hstop := stopFlag_ok_stopDelivery s env hflag
    cases ho : (on_frame_arrived s env).outcome with
    | ok =>
      have hmem := hstop ho
      refine ⟨by simpa [runFrames, ho, hmem] using hsub, fun _ => Or.inr ?_⟩
      simp [runFrames, ho, hmem]
    | err e =>
      refine ⟨by simpa [runFrames, ho] using hsub, fun hok => ?_⟩
      simp [runFrames, ho] at hok
    | panicked =>
      refine ⟨by simpa [runFrames, ho] using hsub, fun hok => ?_⟩
      simp [runFrames, ho] at hok

/-- C5, witness: with the stop flag set before a run of one frame arrival from the
live state, at most one frame is submitted. -/
theorem c5_witness :
    (∀ env ∈ [envStop], env.stopFlag = true) ∧
    countSubmits (runFrames sOpen [envStop]).2.1 ≤ 1 :=
  ⟨by decide, (c5_stop_request_bound sOpen [envStop] (by decide)).1⟩

/-- C6.  Whenever an invocation signals the runtime to stop delivering frames, its
trace is exactly report, flush, submit, finalize, stop-delivery, stopped-message: the
sink is finalized exactly once and strictly before the stop signal, and the stop
signal never occurs without a preceding finalize.  Moreover, over any maximal run the
sink is finalized at most once. -/
theorem c6_finalize_before_stop (s : CaptureState) (env : FrameEnv)
    (envs : List FrameEnv)
    (h : Effect.stopDelivery ∈ (on_frame_arrived s env).effects) :
    (on_frame_arrived s env).effects =
      [Effect.report (s.frame_count_since_reset + 1) (env.now - s.last_reset)
          (env.now - s.start), Effect.flushStdout, Effect.submitFrame env.frameId,
        Effect.finalizeSink, Effect.stopDelivery, Effect.printStopped] ∧
    countFinalizes (runFrames s envs).2.1 ≤ 1 := by
  refine ⟨?_, runFrames_finalizes_le_one s envs⟩
  revert h
  unfold on_frame_arrived
  cases hf : env.flushOk <;> cases henc : s.encoder <;> cases hsend : env.sendOk <;>
    cases hstop : env.stopFlag <;> cases hfin : env.finishOk <;>
      by_cases hw : oneSecond ≤ env.now - s.last_reset <;>
        simp [hf, henc, hsend, hstop, hfin, hw]

/-- C6, witness at the live state `sOpen` and a stop-flagged frame arrival. -/
theorem c6_witness :
    Effect.stopDelivery ∈ (on_frame_arrived sOpen envStop).effects ∧
    ((on_frame_arrived sOpen envStop).effects =
        [Effect.report (sOpen.frame_count_since_reset + 1)
            (envStop.now - sOpen.last_reset) (envStop.now - sOpen.start),
          Effect.flushStdout, Effect.submitFrame envStop.frameId,
          Effect.finalizeSink, Effect.stopDelivery, Effect.printStopped] ∧
      countFinalizes (runFrames sOpen [envStop]).2.1 ≤ 1) :=
  ⟨by decide, c6_finalize_before_stop sOpen envStop [envStop] (by decide)⟩

/-- Settings with a zero width, as produced for a zero-width capture target. -/
def settingsZero : CaptureSettings := { settings0 with width := 0 }

/-- C7.  A configuration whose width or height equals 0 is rejected before the sink is
opened: `Capture::new` fails and no encoder-open effect is performed. -/
theorem c7_zero_dimension_rejected (startNow : Nat) (flags : CaptureSettings)
    (h : flags.width = 0 ∨ flags.height = 0) :
    (Capture.new startNow flags).1 = none ∧
    Effect.openEncoder ∉ (Capture.new startNow flags).2 := by
  have hv : VideoEncoder.new flags = (none, []) := by
    unfold VideoEncoder.new
    exact if_pos h
  simp [Capture.new, hv]

/-- C7, witness at a concrete zero-width configuration. -/
theorem c7_witness :
    (settingsZero.width = 0 ∨ settingsZero.height = 0) ∧
    ((Capture.new 0 settingsZero).1 = none ∧
      Effect.openEncoder ∉ (Capture.new 0 settingsZero).2) :=
  ⟨Or.inl rfl, c7_zero_dimension_rejected 0 settingsZero (Or.inl rfl)⟩

end WinCap
